import Mathlib

/-!
Shallow embedding of the SN_assignment data-analysis agent
(`src/agent_orchestrator/agent.py`, `src/file_processing/process_file.py`,
`src/llm_handler/data_analysis.py`, `src/visualization/visualization.py`)
and proofs about its query orchestration, parameter extraction, intent
classification, ingestion and error handling.

Python strings are modelled as `String` / `List Char` (`str.lower` is
per-character ASCII lowering, which is what every query in scope exercises),
Python dicts of JSON values as association lists, the language-model
collaborator as an explicit outcome value, and `json.loads` as an arbitrary
function parameter (it is an external library call).  Pandas dataframes and
the actual seaborn drawing calls are external collaborators: a dataframe is
an opaque payload and the render engine is embedded only down to its
decision logic (type dispatch, error raising, result envelope).
-/

set_option autoImplicit false
set_option linter.unusedVariables false

namespace SNAgent

/-! ### Python string primitives -/

/-- Python `pat in hay` substring test on character lists. -/
def containsSub (pat hay : List Char) : Bool :=
  hay.tails.any (fun t => pat.isPrefixOf t)

/-- Python `hay.find(pat)`: index of the first occurrence, `none` for `-1`. -/
def findSub (pat : List Char) : List Char → Option Nat
  | [] => if pat.isEmpty then some 0 else none
  | c :: t => if pat.isPrefixOf (c :: t) then some 0 else (findSub pat t).map (· + 1)

/-- Characters stripped by Python's argumentless `str.strip()`. -/
def wsChars : List Char := [' ', '\t', '\n', '\r', '\x0b', '\x0c']

/-- Python `s.strip(bad)`: drop the given characters from both ends. -/
def pyStripChars (bad : List Char) (cs : List Char) : List Char :=
  ((cs.dropWhile (bad.contains ·)).reverse.dropWhile (bad.contains ·)).reverse

/-- Python `s.strip()` (whitespace). -/
def pyStrip (cs : List Char) : List Char := pyStripChars wsChars cs

/-- Python `s.lower()` on the character list (per-character ASCII lowering). -/
def lowerChars (q : String) : List Char := q.toList.map Char.toLower

/-! ### Python dict of JSON scalar values -/

/-- A JSON / Python scalar as it appears in the extracted parameter dict:
`null` doubles as Python `None`. -/
inductive PyVal where
  | null
  | str (s : String)
  deriving DecidableEq

/-- Python f-string rendering of a value. -/
def PyVal.fstr : PyVal → String
  | .null => "None"
  | .str s => s

/-- Python truthiness (`None` and `""` are falsy). -/
def PyVal.truthy : PyVal → Bool
  | .null => false
  | .str s => !(s == "")

/-- A Python dict with string keys, in insertion order. -/
abbrev PDict := List (String × PyVal)

/-- Python `d.get(k)` / `d[k]` lookup: `none` models a missing key
(a `KeyError` for the `d[k]` form). -/
def pget? (d : PDict) (k : String) : Option PyVal :=
  match d with
  | [] => none
  | (k', v) :: t => if k' = k then some v else pget? t k

/-- Python `d.get(k, dflt)`. -/
def pgetD (d : PDict) (k : String) (dflt : PyVal) : PyVal :=
  (pget? d k).getD dflt

/-- Python `d[k] = v`: replace in place, else append. -/
def pset (d : PDict) (k : String) (v : PyVal) : PDict :=
  match d with
  | [] => [(k, v)]
  | (k', v') :: t => if k' = k then (k', v) :: t else (k', v') :: pset t k v

/-- Python `v in frames` where `frames` is a dict with string keys and `v`
came out of a JSON object (only a string can equal a key). -/
def pyInKeys (v : PyVal) (keys : List String) : Bool :=
  match v with
  | .null => false
  | .str s => keys.contains s

/-! ### Intent classification (`DataAnalysisAgent.ask`, lines 45-48) -/

/-- The fixed keyword list `viz_keywords` from `ask`. -/
def vizKeywords : List String :=
  ["plot", "chart", "graph", "visualize", "visualization",
   "histogram", "line", "bar", "pie", "scatter", "boxplot"]

/-- `viz_request = any(keyword in query.lower() for keyword in viz_keywords)`. -/
def isVizRequest (q : String) : Bool :=
  vizKeywords.any (fun k => containsSub k.toList (lowerChars q))

/-- The two intents of the spec. -/
inductive Intent where
  | analysis
  | visualization
  deriving DecidableEq

/-- The classifier described in spec §4.3, as computed by `ask`. -/
def classifyIntent (q : String) : Intent :=
  if isVizRequest q then .visualization else .analysis

/-! ### Parameter extraction (`DataAnalysisAgent._parse_visualization_request`) -/

/-- Outcome of one `llm.invoke` call: the collaborator either raises or
returns a textual response. -/
inductive ModelResult where
  | raises
  | returns (text : String)
  deriving DecidableEq

/-- The markdown fence cleanup on `response_text`
(agent.py lines 137-144): strip, drop a leading ```` ```json ```` or
` ``` `, drop a trailing ` ``` `, strip again. -/
def stripFences (s : String) : String :=
  let cs1 := pyStrip s.toList
  let cs2 := if "```json".toList.isPrefixOf cs1 then cs1.drop 7 else cs1
  let cs3 := if "```".toList.isPrefixOf cs2 then cs2.drop 3 else cs2
  let cs4 := if "```".toList.isSuffixOf cs3 then cs3.take (cs3.length - 3) else cs3
  String.mk (pyStrip cs4)

/-- The `default_params` dict built at the top of the `except` branch
(agent.py lines 151-158). -/
def fallbackBase (files : List String) (q : String) : PDict :=
  [("type", .str (if containsSub "histogram".toList (lowerChars q)
                  then "histogram" else "bar")),
   ("x_column", .null),
   ("y_column", .null),
   ("category_column", .null),
   ("title", .null),
   ("file_id", match files with | [] => PyVal.null | f :: _ => .str f)]

/-- `query[start:end_]` where `end_ = query.find('.', start)`, with `-1`
mapped to `len(query)` (the slice shared by the x-axis and title rules). -/
def sliceFindDot (qc : List Char) (start : Nat) : List Char :=
  let seg := qc.drop start
  match findSub ['.'] seg with
  | some j => seg.take j
  | none => seg

/-- The deterministic heuristic extractor (agent.py lines 151-177):
defaults, then the `x-axis` and `title` substring rules.  The Python guard
`'x-axis' in query.lower()` followed by `query.lower().find('x-axis')` is
fused into one `findSub` match (`in` holds exactly when `find` succeeds). -/
def fallbackParams (files : List String) (q : String) : PDict :=
  let qc := q.toList
  let ql := lowerChars q
  let p0 := fallbackBase files q
  let p1 := match findSub "x-axis".toList ql with
    | none => p0
    | some i => pset p0 "x_column"
        (.str (String.mk (pyStrip (sliceFindDot qc (i + 7)))))
  match findSub "title".toList ql with
  | none => p1
  | some i => pset p1 "title"
      (.str (String.mk (pyStripChars [' ', '\x22', '\x27'] (sliceFindDot qc (i + 5)))))

/-- The primary path of `_parse_visualization_request`: the model call plus
`json.loads` on the fence-stripped text.  `jsonParse` stands for the
external `json.loads`, restricted to object results; `none` is any raise. -/
def primaryParse (jsonParse : String → Option PDict) (mr : ModelResult) :
    Option PDict :=
  match mr with
  | .raises => none
  | .returns t => jsonParse (stripFences t)

/-- `_parse_visualization_request` (agent.py lines 102-177): the whole
`try` body is guarded by `except Exception`, so any failure of the primary
path lands in the heuristic fallback and the function itself never raises. -/
def parseVizRequest (jsonParse : String → Option PDict) (files : List String)
    (q : String) (mr : ModelResult) : PDict :=
  match primaryParse jsonParse mr with
  | some d => d
  | none => fallbackParams files q

/-! ### Basic lemmas -/

theorem pget?_pset_self (d : PDict) (k : String) (v : PyVal) :
    pget? (pset d k v) k = some v := by
  induction d with
  | nil => simp [pset, pget?]
  | cons p t ih =>
    by_cases h : p.1 = k
    · simp [pset, pget?, h]
    · simp [pset, pget?, h, ih]

theorem pget?_pset_ne (d : PDict) (k k' : String) (v : PyVal)
    (h : k ≠ k') : pget? (pset d k v) k' = pget? d k' := by
  induction d with
  | nil => simp [pset, pget?, h]
  | cons p t ih =>
    by_cases hp : p.1 = k
    · simp [pset, pget?, hp, h]
    · simp [pset, pget?, hp, ih]

theorem map_fst_pset_of_mem (d : PDict) (k : String) (v : PyVal)
    (h : k ∈ d.map Prod.fst) : (pset d k v).map Prod.fst = d.map Prod.fst := by
  induction d with
  | nil => simp at h
  | cons p t ih =>
    by_cases hp : p.1 = k
    · simp [pset, hp]
    · rw [List.map_cons, List.mem_cons] at h
      rcases h with h | h
      · exact absurd h.symm hp
      · simp [pset, hp, ih h]

theorem containsSub_iff (pat hay : List Char) :
    containsSub pat hay = true ↔ pat <:+: hay := by
  unfold containsSub
  rw [List.any_eq_true]
  constructor
  · rintro ⟨t, ht, hp⟩
    rw [List.mem_tails] at ht
    rw [List.isPrefixOf_iff_prefix] at hp
    exact List.infix_iff_prefix_suffix.mpr ⟨t, hp, ht⟩
  · intro h
    obtain ⟨t, hp, hs⟩ := List.infix_iff_prefix_suffix.mp h
    exact ⟨t, (List.mem_tails _ _).mpr hs, List.isPrefixOf_iff_prefix.mpr hp⟩

theorem take_findSub_dot (l : List Char) :
    (match findSub ['.'] l with
     | some j => l.take j
     | none => l) = l.takeWhile (· != '.') := by
  induction l with
  | nil => simp [findSub]
  | cons c t ih =>
    by_cases h : c = '.'
    · subst h
      simp [findSub, List.isPrefixOf, List.takeWhile]
    · have hb : ('.' == c) = false := by
        simp [beq_iff_eq]
        exact fun he => h he.symm
      simp only [findSub, List.isPrefixOf, hb, Bool.false_and, Bool.false_eq_true,
        if_false, List.takeWhile]
      have hc : (c != '.') = true := by
        simp [bne_iff_ne]
        exact h
      rw [hc]
      cases hf : findSub ['.'] t with
      | none =>
        rw [hf] at ih
        simp only [Option.map_none']
        simp at ih ⊢
        exact ih
      | some j =>
        rw [hf] at ih
        simp only [Option.map_some']
        simpa [List.take] using ih

theorem sliceFindDot_eq (qc : List Char) (s : Nat) :
    sliceFindDot qc s = (qc.drop s).takeWhile (· != '.') := by
  unfold sliceFindDot
  exact take_findSub_dot (qc.drop s)

theorem fallback_type (files : List String) (q : String) :
    pget? (fallbackParams files q) "type"
      = some (.str (if containsSub "histogram".toList (lowerChars q)
                    then "histogram" else "bar")) := by
  simp only [fallbackParams]
  cases hx : findSub "x-axis".toList (lowerChars q) <;>
    cases ht : findSub "title".toList (lowerChars q) <;> rfl

theorem fallback_y_column (files : List String) (q : String) :
    pget? (fallbackParams files q) "y_column" = some .null := by
  simp only [fallbackParams]
  cases hx : findSub "x-axis".toList (lowerChars q) <;>
    cases ht : findSub "title".toList (lowerChars q) <;> rfl

theorem fallback_category_column (files : List String) (q : String) :
    pget? (fallbackParams files q) "category_column" = some .null := by
  simp only [fallbackParams]
  cases hx : findSub "x-axis".toList (lowerChars q) <;>
    cases ht : findSub "title".toList (lowerChars q) <;> rfl

theorem fallback_file_id (files : List String) (q : String) :
    pget? (fallbackParams files q) "file_id"
      = (match files with
         | [] => some PyVal.null
         | f :: _ => some (PyVal.str f)) := by
  simp only [fallbackParams]
  cases hx : findSub "x-axis".toList (lowerChars q) <;>
    cases ht : findSub "title".toList (lowerChars q) <;> cases files <;> rfl

theorem fallback_x_none (files : List String) (q : String)
    (hx : findSub "x-axis".toList (lowerChars q) = none) :
    pget? (fallbackParams files q) "x_column" = some .null := by
  simp only [fallbackParams, hx]
  cases ht : findSub "title".toList (lowerChars q) <;> rfl

theorem fallback_title_none (files : List String) (q : String)
    (ht : findSub "title".toList (lowerChars q) = none) :
    pget? (fallbackParams files q) "title" = some .null := by
  simp only [fallbackParams, ht]
  cases hx : findSub "x-axis".toList (lowerChars q) <;> rfl

theorem fallback_x_some (files : List String) (q : String) (i : Nat)
    (hx : findSub "x-axis".toList (lowerChars q) = some i) :
    pget? (fallbackParams files q) "x_column"
      = some (.str (String.mk (pyStrip
          ((q.toList.drop (i + 7)).takeWhile (· != '.'))))) := by
  simp only [fallbackParams, hx]
  rw [← sliceFindDot_eq]
  cases ht : findSub "title".toList (lowerChars q) <;> rfl

theorem fallback_title_some (files : List String) (q : String) (j : Nat)
    (ht : findSub "title".toList (lowerChars q) = some j) :
    pget? (fallbackParams files q) "title"
      = some (.str (String.mk (pyStripChars [' ', '\x22', '\x27']
          ((q.toList.drop (j + 5)).takeWhile (· != '.'))))) := by
  simp only [fallbackParams, ht]
  rw [← sliceFindDot_eq]
  cases hx : findSub "x-axis".toList (lowerChars q) <;> rfl

theorem fallbackParams_keys (files : List String) (q : String) :
    (fallbackParams files q).map Prod.fst
      = ["type", "x_column", "y_column", "category_column", "title", "file_id"] := by
  simp only [fallbackParams]
  cases hx : findSub "x-axis".toList (lowerChars q) <;>
    cases ht : findSub "title".toList (lowerChars q) <;> rfl

/-- Claim C3: the intent classifier is exactly case-insensitive substring
match against the fixed keyword set, and the three spec examples hold. -/
theorem intent_keyword_match :
    (∀ q : String, classifyIntent q = .visualization ↔
      ∃ k ∈ vizKeywords, k.toList <:+: lowerChars q)
    ∧ classifyIntent "show me a bar chart of sales" = .visualization
    ∧ classifyIntent "what is the average loan amount" = .analysis
    ∧ classifyIntent "" = .analysis := by
  refine ⟨fun q => ?_, by decide, by decide, by decide⟩
  unfold classifyIntent
  constructor
  · intro h
    by_cases hb : isVizRequest q = true
    · unfold isVizRequest at hb
      rw [List.any_eq_true] at hb
      obtain ⟨k, hk, hc⟩ := hb
      exact ⟨k, hk, (containsSub_iff _ _).mp hc⟩
    · simp [hb] at h
  · rintro ⟨k, hk, hinf⟩
    have hb : isVizRequest q = true := by
      unfold isVizRequest
      rw [List.any_eq_true]
      exact ⟨k, hk, (containsSub_iff _ _).mpr hinf⟩
    simp [hb]

/-! ### Claims C2, C4, C9 on the parameter extractor -/

/-- Claim C2 as frozen is false: in the heuristic fallback the x-column is
not always unset — on `"Plot with x-axis Foo"` under a raising model the
`x-axis` substring rule fills it with `"Foo"`. -/
theorem fallback_x_column_set_cex :
    pget? (parseVizRequest (fun _ => none) ["loans.csv"] "Plot with x-axis Foo"
        .raises) "x_column" = some (.str "Foo")
    ∧ some (PyVal.str "Foo") ≠ some PyVal.null := ⟨by decide, by decide⟩

/-- Claim C2 amended: when the model call raises or the fence-stripped
output is not valid JSON, extraction returns the deterministic fallback;
there chart type is `histogram` exactly when "histogram" occurs in the
lowercased query and `bar` otherwise, y-column and category-column are
unset, the dataset key is the first available key, and
`extract("Create a histogram of Age", ["loans.csv"])` yields chart type
`histogram` with dataset key `"loans.csv"` (x-column and title default to
unset but may be filled by the substring rules of C4). -/
theorem parse_fallback_extraction (jp : String → Option PDict)
    (files : List String) (q : String) (mr : ModelResult)
    (f : String) (fs : List String)
    (hfail : mr = .raises ∨ ∃ t, mr = .returns t ∧ jp (stripFences t) = none)
    (hfiles : files = f :: fs) :
    parseVizRequest jp files q mr = fallbackParams files q
    ∧ pget? (fallbackParams files q) "type"
        = some (.str (if containsSub "histogram".toList (lowerChars q)
                      then "histogram" else "bar"))
    ∧ pget? (fallbackParams files q) "y_column" = some .null
    ∧ pget? (fallbackParams files q) "category_column" = some .null
    ∧ pget? (fallbackParams files q) "file_id" = some (.str f)
    ∧ pget? (parseVizRequest jp ["loans.csv"] "Create a histogram of Age"
        .raises) "type" = some (.str "histogram")
    ∧ pget? (parseVizRequest jp ["loans.csv"] "Create a histogram of Age"
        .raises) "file_id" = some (.str "loans.csv") := by
  have hprim : primaryParse jp mr = none := by
    rcases hfail with h | ⟨t, ht, hj⟩
    · rw [h]; rfl
    · rw [ht]; exact hj
  refine ⟨?_, fallback_type files q, fallback_y_column files q,
    fallback_category_column files q, ?_, by rfl, by rfl⟩
  · simp [parseVizRequest, hprim]
  · rw [fallback_file_id files q, hfiles]

theorem parse_fallback_extraction_witness :
    ((ModelResult.raises = ModelResult.raises
        ∨ ∃ t, ModelResult.raises = ModelResult.returns t
            ∧ (fun _ => (none : Option PDict)) (stripFences t) = none)
      ∧ (["loans.csv"] : List String) = "loans.csv" :: [])
    ∧ (parseVizRequest (fun _ => none) ["loans.csv"] "Create a histogram of Age"
          .raises
        = fallbackParams ["loans.csv"] "Create a histogram of Age"
      ∧ pget? (fallbackParams ["loans.csv"] "Create a histogram of Age") "type"
          = some (.str (if containsSub "histogram".toList
                          (lowerChars "Create a histogram of Age")
                        then "histogram" else "bar"))
      ∧ pget? (fallbackParams ["loans.csv"] "Create a histogram of Age")
          "y_column" = some .null
      ∧ pget? (fallbackParams ["loans.csv"] "Create a histogram of Age")
          "category_column" = some .null
      ∧ pget? (fallbackParams ["loans.csv"] "Create a histogram of Age")
          "file_id" = some (.str "loans.csv")
      ∧ pget? (parseVizRequest (fun _ => none) ["loans.csv"]
          "Create a histogram of Age" .raises) "type" = some (.str "histogram")
      ∧ pget? (parseVizRequest (fun _ => none) ["loans.csv"]
          "Create a histogram of Age" .raises) "file_id"
          = some (.str "loans.csv")) :=
  ⟨⟨Or.inl rfl, rfl⟩,
   parse_fallback_extraction (fun _ => none) ["loans.csv"]
     "Create a histogram of Age" .raises "loans.csv" [] (Or.inl rfl) rfl⟩

/-- Spec-side reading of claim C4, for comparison only: the text
immediately following the substring "x-axis", up to the next period or the
end of the string, taken verbatim. -/
def xAxisVerbatimText (q : String) : Option String :=
  match findSub "x-axis".toList q.toList with
  | none => none
  | some i => some (String.mk ((q.toList.drop (i + 6)).takeWhile (· != '.')))

/-- Claim C4 as frozen is false: on `"Plot x-axisFoo"` the code skips one
character past "x-axis" (`find + 7` for a six-character token), so the
x-column becomes `"oo"`, not the verbatim following text `"Foo"`. -/
theorem xaxis_not_verbatim_cex :
    pget? (fallbackParams ["k.csv"] "Plot x-axisFoo") "x_column"
      = some (.str "oo")
    ∧ xAxisVerbatimText "Plot x-axisFoo" = some "Foo"
    ∧ ("oo" : String) ≠ "Foo" := ⟨by decide, by decide, by decide⟩

/-- Claim C4 amended: if the lowercased query contains "x-axis", the text
starting one character past the match (skipping the separator character) up
to the next period or the end of the string, stripped of surrounding
whitespace, becomes the x-column; if it contains "title", the text
immediately following the match up to the next period, trimmed of
surrounding quote and space characters, becomes the title; in particular
`extract("Plot with x-axis CreditScore. title Loan Overview.", keys)`
yields x-column `"CreditScore"` and title `"Loan Overview"`. -/
theorem fallback_substring_rules (files : List String) (q : String)
    (i j : Nat)
    (hx : findSub "x-axis".toList (lowerChars q) = some i)
    (ht : findSub "title".toList (lowerChars q) = some j) :
    pget? (fallbackParams files q) "x_column"
      = some (.str (String.mk (pyStrip
          ((q.toList.drop (i + 7)).takeWhile (· != '.')))))
    ∧ pget? (fallbackParams files q) "title"
      = some (.str (String.mk (pyStripChars [' ', '\x22', '\x27']
          ((q.toList.drop (j + 5)).takeWhile (· != '.')))))
    ∧ pget? (fallbackParams ["k"]
        "Plot with x-axis CreditScore. title Loan Overview.") "x_column"
        = some (.str "CreditScore")
    ∧ pget? (fallbackParams ["k"]
        "Plot with x-axis CreditScore. title Loan Overview.") "title"
        = some (.str "Loan Overview") :=
  ⟨fallback_x_some files q i hx, fallback_title_some files q j ht,
   by decide, by decide⟩

theorem fallback_substring_rules_witness :
    (findSub "x-axis".toList
        (lowerChars "Plot with x-axis CreditScore. title Loan Overview.")
        = some 10
      ∧ findSub "title".toList
        (lowerChars "Plot with x-axis CreditScore. title Loan Overview.")
        = some 30)
    ∧ (pget? (fallbackParams ["k"]
          "Plot with x-axis CreditScore. title Loan Overview.") "x_column"
        = some (.str (String.mk (pyStrip
            (("Plot with x-axis CreditScore. title Loan Overview.".toList.drop
              (10 + 7)).takeWhile (· != '.')))))
      ∧ pget? (fallbackParams ["k"]
          "Plot with x-axis CreditScore. title Loan Overview.") "title"
        = some (.str (String.mk (pyStripChars [' ', '\x22', '\x27']
            (("Plot with x-axis CreditScore. title Loan Overview.".toList.drop
              (30 + 5)).takeWhile (· != '.')))))
      ∧ pget? (fallbackParams ["k"]
          "Plot with x-axis CreditScore. title Loan Overview.") "x_column"
          = some (.str "CreditScore")
      ∧ pget? (fallbackParams ["k"]
          "Plot with x-axis CreditScore. title Loan Overview.") "title"
          = some (.str "Loan Overview")) :=
  ⟨⟨by decide, by decide⟩,
   fallback_substring_rules ["k"]
     "Plot with x-axis CreditScore. title Loan Overview." 10 30
     (by decide) (by decide)⟩

/-- Claim C9: parameter extraction is total for every behavior of the model
collaborator and of the JSON parser — the `except Exception` guard means
the result is either the primary parse or the heuristic fallback, never a
raise — and in the fallback branch the returned dict has exactly the six
fields `type`, `x_column`, `y_column`, `category_column`, `title`,
`file_id`, with `type` equal to `histogram` or `bar`. -/
theorem parse_total_shape (jp : String → Option PDict) (files : List String)
    (q : String) (mr : ModelResult) :
    ((∃ d, primaryParse jp mr = some d ∧ parseVizRequest jp files q mr = d)
      ∨ (primaryParse jp mr = none
          ∧ parseVizRequest jp files q mr = fallbackParams files q))
    ∧ (fallbackParams files q).map Prod.fst
        = ["type", "x_column", "y_column", "category_column", "title", "file_id"]
    ∧ (pget? (fallbackParams files q) "type" = some (.str "histogram")
        ∨ pget? (fallbackParams files q) "type" = some (.str "bar")) := by
  refine ⟨?_, fallbackParams_keys files q, ?_⟩
  · cases h : primaryParse jp mr with
    | some d => exact Or.inl ⟨d, rfl, by simp [parseVizRequest, h]⟩
    | none => exact Or.inr ⟨rfl, by simp [parseVizRequest, h]⟩
  · rw [fallback_type files q]
    by_cases hh : containsSub "histogram".toList (lowerChars q) = true
    · exact Or.inl (by rw [hh]; rfl)
    · right
      rw [if_neg hh]

/-! ### Render engine (`VisualizationEngine`, visualization.py)

The dataframe and the actual seaborn drawing calls are external
collaborators; the embedding keeps the decision logic: engine dispatch,
chart-type dispatch, the error raises, and the returned result dict
(whose base64 figure payload is elided). -/

inductive RenderError where
  | unsupportedChartType (msg : String)
  | unsupportedEngine (msg : String)
  | missingPieplot
  deriving DecidableEq

/-- The result dict of `_seaborn_viz` minus the externally produced image
bytes: `{'format': 'base64_png', 'title': ..., 'type': ..., 'engine': 'seaborn'}`. -/
structure VizResult where
  title : PyVal
  vtype : PyVal
  format : String
  engine : String
  deriving DecidableEq

/-- `VisualizationEngine._seaborn_viz` (lines 50-138): chart-type dispatch.
Recognized types produce the result dict (plot drawing is external); the
`pie` branches call the nonexistent `sns.pieplot`, an `AttributeError`;
anything else raises `ValueError("Unsupported visualization type: ...")`. -/
def seabornViz (vizType xColumn yColumn categoryColumn title : PyVal) :
    Except RenderError VizResult :=
  if vizType = .str "bar" then .ok ⟨title, vizType, "base64_png", "seaborn"⟩
  else if vizType = .str "line" then .ok ⟨title, vizType, "base64_png", "seaborn"⟩
  else if vizType = .str "scatter" then .ok ⟨title, vizType, "base64_png", "seaborn"⟩
  else if vizType = .str "histogram" then .ok ⟨title, vizType, "base64_png", "seaborn"⟩
  else if vizType = .str "boxplot" then .ok ⟨title, vizType, "base64_png", "seaborn"⟩
  else if vizType = .str "heatmap" then .ok ⟨title, vizType, "base64_png", "seaborn"⟩
  else if vizType = .str "pie" then .error .missingPieplot
  else .error (.unsupportedChartType
    ("Unsupported visualization type: " ++ vizType.fstr))

/-- `VisualizationEngine.generate_visualization` (lines 29-47). -/
def generateVisualization (vizType xColumn yColumn categoryColumn title : PyVal)
    (engine : String) : Except RenderError VizResult :=
  if engine = "seaborn" then
    seabornViz vizType xColumn yColumn categoryColumn title
  else .error (.unsupportedEngine ("Unsupported visualization engine: " ++ engine))

/-! ### The orchestrator (`DataAnalysisAgent.ask`, agent.py lines 32-100) -/

/-- Opaque stand-in for a pandas dataframe. -/
structure DataFrame where
  tag : Nat
  deriving DecidableEq

/-- The mutable session state `ask` reads and writes: the keys of
`self.files`, the engine's `data_frames` store, and
`self.conversation_history` as (role, content) pairs. -/
structure AgentState where
  files : List String
  dataFrames : List (String × DataFrame)
  history : List (String × String)
  deriving DecidableEq

inductive AgentError where
  | noData
  | keyError (k : String)
  | render (e : RenderError)
  | modelError
  deriving DecidableEq

/-- The response dict: `{'type': 'text', 'message': ...}` or
`{'type': 'visualization', 'data': ..., 'message': ...}`. -/
inductive Response where
  | text (message : String)
  | visualization (data : VizResult) (message : String)
  deriving DecidableEq

structure AskResult where
  state : AgentState
  outcome : Except AgentError Response
  modelCalls : Nat

/-- The message of the not-found branch (agent.py line 80). -/
def notFoundMsg (v : PyVal) : String :=
  "File " ++ v.fstr ++ " not found or no data available for visualization"

/-- `DataAnalysisAgent.ask`.  The two `llm.invoke` outcomes (one possible
call inside `_parse_visualization_request`, one inside `analyze_data`) are
passed in explicitly; `modelCalls` counts how many invocations were
attempted.  An `Except.error` outcome is an exception escaping `ask`. -/
def ask (jsonParse : String → Option PDict) (st : AgentState) (q : String)
    (parseModel analysisModel : ModelResult) : AskResult :=
  let hist1 := st.history ++ [("user", q)]
  match st.files with
  | [] => ⟨{ st with history := hist1 }, .error .noData, 0⟩
  | fid :: _ =>
    if isVizRequest q then
      let vizParams := parseVizRequest jsonParse st.files q parseModel
      let vizFileId := pgetD vizParams "file_id" (.str fid)
      if vizFileId.truthy && pyInKeys vizFileId (st.dataFrames.map Prod.fst) then
        match generateVisualization (pgetD vizParams "type" (.str "bar"))
            (pgetD vizParams "x_column" .null) (pgetD vizParams "y_column" .null)
            (pgetD vizParams "category_column" .null)
            (pgetD vizParams "title" .null) "seaborn" with
        | .error e => ⟨{ st with history := hist1 }, .error (.render e), 1⟩
        | .ok vz =>
          match pget? vizParams "type" with
          | none => ⟨{ st with history := hist1 }, .error (.keyError "type"), 1⟩
          | some tv =>
            let msg := "Here is the " ++ tv.fstr ++ " visualization you requested"
            ⟨{ st with history := hist1 ++ [("assistant", msg)] },
             .ok (.visualization vz msg), 1⟩
      else
        let msg := notFoundMsg vizFileId
        ⟨{ st with history := hist1 ++ [("assistant", msg)] },
         .ok (.text msg), 1⟩
    else
      match analysisModel with
      | .raises => ⟨{ st with history := hist1 }, .error .modelError, 1⟩
      | .returns t =>
        ⟨{ st with history := hist1 ++ [("assistant", t)] }, .ok (.text t), 1⟩

/-! ### Claims C1, C6, C8, C10 on the orchestrator -/

/-- Claim C8: a query on a session with no processed files fails with
`NoData` (the `ValueError("No files have been processed yet")` raise), no
model call is attempted, and the dataset stores are unchanged; only the
user turn was appended to the conversation history. -/
theorem ask_no_data_guard (jp : String → Option PDict) (st : AgentState)
    (q : String) (pm am : ModelResult) (h : st.files = []) :
    ask jp st q pm am
      = ⟨{ st with history := st.history ++ [("user", q)] },
         .error .noData, 0⟩
    ∧ (ask jp st q pm am).state.files = st.files
    ∧ (ask jp st q pm am).state.dataFrames = st.dataFrames
    ∧ (ask jp st q pm am).modelCalls = 0 := by
  obtain ⟨files, dfs, hist⟩ := st
  simp only at h
  subst h
  exact ⟨rfl, rfl, rfl, rfl⟩

theorem ask_no_data_guard_witness :
    (AgentState.files ⟨[], [], []⟩ = [])
    ∧ (ask (fun _ => none) ⟨[], [], []⟩ "what is the average" .raises .raises
        = ⟨⟨[], [], [("user", "what is the average")]⟩, .error .noData, 0⟩
      ∧ (ask (fun _ => none) ⟨[], [], []⟩ "what is the average" .raises
          .raises).state.files = []
      ∧ (ask (fun _ => none) ⟨[], [], []⟩ "what is the average" .raises
          .raises).state.dataFrames = []
      ∧ (ask (fun _ => none) ⟨[], [], []⟩ "what is the average" .raises
          .raises).modelCalls = 0) :=
  ⟨rfl, ask_no_data_guard (fun _ => none) ⟨[], [], []⟩ "what is the average"
    .raises .raises rfl⟩

/-- Claim C1: on a visualization query whose extracted `file_id` is not a
key of the dataset collection, `ask` does not crash: it produces the
dataset-not-found error envelope (the code's realization of
`DatasetNotFound`), and the conversation history gains the user turn plus
only the assistant turn carrying that error message. -/
theorem ask_dataset_not_found (jp : String → Option PDict) (st : AgentState)
    (q : String) (pm am : ModelResult) (f : String) (fs : List String)
    (hfiles : st.files = f :: fs)
    (hviz : isVizRequest q = true)
    (hid : pyInKeys (pgetD (parseVizRequest jp st.files q pm) "file_id" (.str f))
        (st.dataFrames.map Prod.fst) = false) :
    ask jp st q pm am
      = ⟨⟨st.files, st.dataFrames,
          st.history ++ [("user", q),
            ("assistant", notFoundMsg (pgetD (parseVizRequest jp st.files q pm)
              "file_id" (.str f)))]⟩,
         .ok (.text (notFoundMsg (pgetD (parseVizRequest jp st.files q pm)
              "file_id" (.str f)))), 1⟩ := by
  obtain ⟨files, dfs, hist⟩ := st
  simp only at hfiles hid ⊢
  subst hfiles
  simp only [ask, hviz, if_true, hid, Bool.and_false, Bool.false_eq_true,
    if_false]
  simp [notFoundMsg]

theorem ask_dataset_not_found_witness :
    (AgentState.files ⟨["a.csv"], [("b.csv", ⟨0⟩)], []⟩ = "a.csv" :: []
      ∧ isVizRequest "plot age" = true
      ∧ pyInKeys (pgetD (parseVizRequest (fun _ => none) ["a.csv"] "plot age"
            .raises) "file_id" (.str "a.csv"))
          ((AgentState.dataFrames ⟨["a.csv"], [("b.csv", ⟨0⟩)], []⟩).map
            Prod.fst) = false)
    ∧ ask (fun _ => none) ⟨["a.csv"], [("b.csv", ⟨0⟩)], []⟩ "plot age"
        .raises .raises
      = ⟨⟨["a.csv"], [("b.csv", ⟨0⟩)],
          [("user", "plot age"),
           ("assistant",
            "File a.csv not found or no data available for visualization")]⟩,
         .ok (.text
          "File a.csv not found or no data available for visualization"), 1⟩ :=
  ⟨⟨rfl, by decide, by decide⟩,
   ask_dataset_not_found (fun _ => none) ⟨["a.csv"], [("b.csv", ⟨0⟩)], []⟩
     "plot age" .raises .raises "a.csv" [] rfl (by decide) (by decide)⟩

/-- Claim C6: a well-formed JSON model response whose chart type lies
outside the supported enum is surfaced by the extractor as-is, and the
render call fails with `UnsupportedChartType`, which escapes `ask`
unmodified (no assistant turn is recorded). -/
theorem ask_unsupported_chart_type (jp : String → Option PDict)
    (st : AgentState) (q t : String) (am : ModelResult) (d : PDict)
    (tv : PyVal) (f k : String) (fs : List String)
    (hfiles : st.files = f :: fs)
    (hviz : isVizRequest q = true)
    (hjson : jp (stripFences t) = some d)
    (htype : pget? d "type" = some tv)
    (henum : tv ∉ (["bar", "line", "scatter", "histogram", "boxplot",
        "heatmap", "pie"].map PyVal.str))
    (hfid : pget? d "file_id" = some (.str k))
    (hk : (k == "") = false)
    (hmem : (st.dataFrames.map Prod.fst).contains k = true) :
    parseVizRequest jp st.files q (.returns t) = d
    ∧ ask jp st q (.returns t) am
      = ⟨⟨st.files, st.dataFrames, st.history ++ [("user", q)]⟩,
         .error (.render (.unsupportedChartType
           ("Unsupported visualization type: " ++ tv.fstr))), 1⟩ := by
  obtain ⟨files, dfs, hist⟩ := st
  simp only at hfiles hmem ⊢
  subst hfiles
  have hparse : parseVizRequest jp (f :: fs) q (.returns t) = d := by
    simp [parseVizRequest, primaryParse, hjson]
  have h1 : ¬ tv = PyVal.str "bar" := fun h => henum (by rw [h]; simp)
  have h2 : ¬ tv = PyVal.str "line" := fun h => henum (by rw [h]; simp)
  have h3 : ¬ tv = PyVal.str "scatter" := fun h => henum (by rw [h]; simp)
  have h4 : ¬ tv = PyVal.str "histogram" := fun h => henum (by rw [h]; simp)
  have h5 : ¬ tv = PyVal.str "boxplot" := fun h => henum (by rw [h]; simp)
  have h6 : ¬ tv = PyVal.str "heatmap" := fun h => henum (by rw [h]; simp)
  have h7 : ¬ tv = PyVal.str "pie" := fun h => henum (by rw [h]; simp)
  refine ⟨hparse, ?_⟩
  simp only [ask, hviz, if_true, hparse]
  have hfidv : pgetD d "file_id" (.str f) = .str k := by
    simp [pgetD, hfid]
  have htv : pgetD d "type" (.str "bar") = tv := by
    simp [pgetD, htype]
  rw [hfidv]
  have hguard : ((PyVal.str k).truthy
      && pyInKeys (.str k) (dfs.map Prod.fst)) = true := by
    show (!(k == "") && (dfs.map Prod.fst).contains k) = true
    rw [hk, hmem]
    rfl
  rw [hguard, if_pos rfl, htv]
  have hrender : generateVisualization tv (pgetD d "x_column" .null)
      (pgetD d "y_column" .null) (pgetD d "category_column" .null)
      (pgetD d "title" .null) "seaborn"
      = .error (.unsupportedChartType
          ("Unsupported visualization type: " ++ tv.fstr)) := by
    unfold generateVisualization seabornViz
    rw [if_pos rfl, if_neg h1, if_neg h2, if_neg h3, if_neg h4, if_neg h5,
      if_neg h6, if_neg h7]
  rw [hrender]

theorem ask_unsupported_chart_type_witness :
    (AgentState.files ⟨["a.csv"], [("a.csv", ⟨0⟩)], []⟩ = "a.csv" :: []
      ∧ isVizRequest "plot x" = true
      ∧ (fun s => if s = "RESP"
            then some [("type", PyVal.str "pyramid"), ("file_id", PyVal.str "a.csv")]
            else none) (stripFences "RESP")
          = some [("type", PyVal.str "pyramid"), ("file_id", PyVal.str "a.csv")]
      ∧ pget? [("type", PyVal.str "pyramid"), ("file_id", PyVal.str "a.csv")]
          "type" = some (.str "pyramid")
      ∧ PyVal.str "pyramid" ∉ (["bar", "line", "scatter", "histogram",
          "boxplot", "heatmap", "pie"].map PyVal.str)
      ∧ pget? [("type", PyVal.str "pyramid"), ("file_id", PyVal.str "a.csv")]
          "file_id" = some (.str "a.csv")
      ∧ (("a.csv" : String) == "") = false
      ∧ ((AgentState.dataFrames ⟨["a.csv"], [("a.csv", ⟨0⟩)], []⟩).map
          Prod.fst).contains "a.csv" = true)
    ∧ (parseVizRequest (fun s => if s = "RESP"
          then some [("type", PyVal.str "pyramid"), ("file_id", PyVal.str "a.csv")]
          else none) ["a.csv"] "plot x" (.returns "RESP")
        = [("type", PyVal.str "pyramid"), ("file_id", PyVal.str "a.csv")]
      ∧ ask (fun s => if s = "RESP"
            then some [("type", PyVal.str "pyramid"), ("file_id", PyVal.str "a.csv")]
            else none) ⟨["a.csv"], [("a.csv", ⟨0⟩)], []⟩ "plot x"
            (.returns "RESP") .raises
        = ⟨⟨["a.csv"], [("a.csv", ⟨0⟩)], [("user", "plot x")]⟩,
           .error (.render (.unsupportedChartType
             "Unsupported visualization type: pyramid")), 1⟩) :=
  ⟨⟨rfl, by decide, by decide, rfl, by decide, rfl, rfl, rfl⟩,
   ask_unsupported_chart_type
     (fun s => if s = "RESP"
        then some [("type", PyVal.str "pyramid"), ("file_id", PyVal.str "a.csv")]
        else none)
     ⟨["a.csv"], [("a.csv", ⟨0⟩)], []⟩ "plot x" "RESP" .raises
     [("type", PyVal.str "pyramid"), ("file_id", PyVal.str "a.csv")]
     (.str "pyramid") "a.csv" "a.csv" [] rfl (by decide) (by decide) rfl
     (by decide) rfl rfl rfl⟩

/-- Claim C10: for a model response that is valid JSON with a valid
`file_id` but no `"type"` field, `ask` on a visualization query raises a
`KeyError` for `"type"` while composing the success message (the f-string
uses `viz_params['type']`), even though the render call itself defaulted
the chart type to `bar` via `viz_params.get('type', 'bar')` and succeeded. -/
theorem ask_missing_type_keyerror :
    (ask (fun s => if s = "RESP"
          then some [("file_id", PyVal.str "a.csv"), ("x_column", PyVal.str "Age")]
          else none)
        ⟨["a.csv"], [("a.csv", ⟨0⟩)], []⟩ "plot Age" (.returns "RESP")
        (.returns "ok")).outcome
      = .error (.keyError "type")
    ∧ pgetD [("file_id", PyVal.str "a.csv"), ("x_column", PyVal.str "Age")]
        "type" (.str "bar") = .str "bar"
    ∧ generateVisualization (.str "bar") (.str "Age") .null .null .null
        "seaborn"
      = .ok ⟨.null, .str "bar", "base64_png", "seaborn"⟩ := ⟨rfl, rfl, rfl⟩

/-! ### File processing (`FileProcessor`, process_file.py) and the dataset
store (`DataAnalysisEngine.add_data`, data_analysis.py)

The pandas parsing calls and the derived metadata are external; the
embedding keeps the extension dispatch, the multi-sheet expansion, and the
store registration. -/

/-- The processed-file dict handed to `add_data`: either `{'data': df,
'metadata': ...}` or `{'sheets': {...}, 'sheet_names': [...]}` (metadata is
computed by external pandas calls and elided). -/
inductive ProcessedData where
  | single (df : DataFrame)
  | excelData (sheets : List (String × DataFrame)) (sheetNames : List String)
  deriving DecidableEq

inductive ProcError where
  | unsupportedFormat (msg : String)
  | missingHandler (name : String)
  deriving DecidableEq

inductive ParseKind where
  | csv
  | excel
  | txt
  | json
  deriving DecidableEq

/-- `self.supported_extensions` (process_file.py line 13). -/
def supported_extensions : List String :=
  [".csv", ".xlsx", ".xls", ".txt", ".doc", ".docx", ".pdf", ".json"]

/-- The dispatch of `FileProcessor.process_file` (lines 15-34) on the
splitext extension.  `.doc`, `.docx` and `.pdf` pass the supported-list
check but their branches call `self._process_doc` / `self._process_pdf`,
methods that do not exist on the class: an `AttributeError`, modelled as
`missingHandler`. -/
def processFileDispatch (extension : String) : Except ProcError ParseKind :=
  if ¬ (supported_extensions.contains extension = true) then
    .error (.unsupportedFormat ("Unsupported file extension: " ++ extension))
  else if extension = ".csv" then .ok .csv
  else if extension = ".xlsx" ∨ extension = ".xls" then .ok .excel
  else if extension = ".txt" then .ok .txt
  else if extension = ".doc" ∨ extension = ".docx" then
    .error (.missingHandler "_process_doc")
  else if extension = ".pdf" then .error (.missingHandler "_process_pdf")
  else if extension = ".json" then .ok .json
  else .error (.unsupportedFormat ("Unsupported file extension: " ++ extension))

/-- An opened workbook: `excel_file.sheet_names` paired with the dataframe
`pd.read_excel` yields per sheet (sheet names in a workbook are unique). -/
structure ExcelFile where
  sheets : List (String × DataFrame)

/-- `FileProcessor._process_excel` (lines 55-77): one entry per sheet name,
plus the `sheet_names` list. -/
def processExcel (xf : ExcelFile) : ProcessedData :=
  .excelData xf.sheets (xf.sheets.map Prod.fst)

/-- The sheet-name list the caller receives from a processed file. -/
def sheetNamesOf : ProcessedData → List String
  | .single _ => []
  | .excelData _ ns => ns

/-- Python `d[k] = v` on a generic string-keyed dict. -/
def assocSet {α : Type} (d : List (String × α)) (k : String) (v : α) :
    List (String × α) :=
  match d with
  | [] => [(k, v)]
  | (k', v') :: t => if k' = k then (k', v) :: t else (k', v') :: assocSet t k v

def assocGet? {α : Type} (d : List (String × α)) (k : String) : Option α :=
  match d with
  | [] => none
  | (k', v) :: t => if k' = k then some v else assocGet? t k

/-- The engine state `add_data` mutates: `self.context` and
`self.data_frames`. -/
structure EngineState where
  context : List (String × ProcessedData)
  dataFrames : List (String × DataFrame)
  deriving DecidableEq

/-- `DataAnalysisEngine.add_data` (data_analysis.py lines 16-27): store the
processed dict under `file_id`; a single-frame dict registers one
dataframe, a sheets dict registers one per sheet under
`f"{file_id}_{sheet_name}"`. -/
def addData (st : EngineState) (pd : ProcessedData) (fileId : String) :
    EngineState :=
  let ctx := assocSet st.context fileId pd
  match pd with
  | .single df => ⟨ctx, assocSet st.dataFrames fileId df⟩
  | .excelData sheets _ =>
    ⟨ctx, sheets.foldl
      (fun acc p => assocSet acc (fileId ++ "_" ++ p.1) p.2) st.dataFrames⟩

theorem assocSet_fresh {α : Type} (acc : List (String × α)) (k : String)
    (v : α) (h : assocGet? acc k = none) :
    assocSet acc k v = acc ++ [(k, v)] := by
  induction acc with
  | nil => rfl
  | cons p t ih =>
    by_cases hp : p.1 = k
    · simp [assocGet?, hp] at h
    · simp only [assocGet?, hp, if_false] at h
      simp [assocSet, hp, ih h]

theorem assocGet?_append_none {α : Type} (acc : List (String × α))
    (k k' : String) (v : α) (h1 : assocGet? acc k' = none) (h2 : k ≠ k') :
    assocGet? (acc ++ [(k, v)]) k' = none := by
  induction acc with
  | nil => simp [assocGet?, h2]
  | cons p t ih =>
    by_cases hp : p.1 = k'
    · simp [assocGet?, hp] at h1
    · simp only [assocGet?, hp, if_false] at h1
      simp [assocGet?, hp, ih h1]

theorem foldl_assocSet_fresh {α : Type} (l : List (String × α)) :
    ∀ acc : List (String × α),
      (l.map Prod.fst).Nodup →
      (∀ p ∈ l, assocGet? acc p.1 = none) →
      l.foldl (fun acc p => assocSet acc p.1 p.2) acc = acc ++ l := by
  induction l with
  | nil => intro acc _ _; simp
  | cons p t ih =>
    intro acc hnd hfresh
    obtain ⟨k, v⟩ := p
    simp only [List.map_cons, List.nodup_cons] at hnd
    simp only [List.foldl_cons]
    rw [assocSet_fresh acc k v (hfresh (k, v) (by simp))]
    rw [ih (acc ++ [(k, v)]) hnd.2 ?_]
    · simp
    · intro q hq
      refine assocGet?_append_none acc k q.1 v
        (hfresh q (List.mem_cons_of_mem _ hq)) ?_
      intro hkq
      exact hnd.1 (hkq ▸ List.mem_map_of_mem Prod.fst hq)

theorem sheetKey_injective (fid : String) :
    Function.Injective (fun s => fid ++ "_" ++ s) := by
  intro a b h
  have h2 := congrArg String.data h
  simp only [String.data_append] at h2
  have h3 := List.append_cancel_left h2
  cases a
  cases b
  exact congrArg String.mk h3

/-! ### Claims C5 and C7 on ingestion -/

/-- Claim C5 concerns the extension guard.  The code's own
`supported_extensions` list additionally contains `.doc`, `.docx` and
`.pdf`, yet the class defines no `_process_doc` / `_process_pdf` methods,
so those extensions pass the guard and then always crash with an
`AttributeError` instead of raising `UnsupportedFormat`; a `.pdf` input is
a failing input for the claim.  Extensions outside the code's list do fail
with `UnsupportedFormat` before any parsing. -/
theorem process_file_extension_dispatch :
    processFileDispatch ".pdf" = .error (.missingHandler "_process_pdf")
    ∧ processFileDispatch ".doc" = .error (.missingHandler "_process_doc")
    ∧ processFileDispatch ".docx" = .error (.missingHandler "_process_doc")
    ∧ processFileDispatch ".parquet"
      = .error (.unsupportedFormat "Unsupported file extension: .parquet")
    ∧ ".pdf" ∈ supported_extensions
    ∧ ".pdf" ∉ [".csv", ".xlsx", ".xls", ".txt", ".json"] :=
  ⟨rfl, rfl, rfl, rfl, by decide, by decide⟩

/-- Claim C7: ingesting a workbook with N (distinct-named) sheets into a
fresh store registers exactly N dataframe entries, one per sheet, keyed
`"{fileId}_{sheetName}"`, and hands back exactly those N sheet names. -/
theorem excel_ingest_registers_sheets (xf : ExcelFile) (fid : String)
    (st : EngineState) (hempty : st.dataFrames = [])
    (hnodup : (xf.sheets.map Prod.fst).Nodup) :
    sheetNamesOf (processExcel xf) = xf.sheets.map Prod.fst
    ∧ (sheetNamesOf (processExcel xf)).length = xf.sheets.length
    ∧ (addData st (processExcel xf) fid).dataFrames
      = xf.sheets.map (fun p => (fid ++ "_" ++ p.1, p.2))
    ∧ (addData st (processExcel xf) fid).dataFrames.map Prod.fst
      = (sheetNamesOf (processExcel xf)).map (fun n => fid ++ "_" ++ n)
    ∧ (addData st (processExcel xf) fid).dataFrames.length
      = xf.sheets.length := by
  have hkeys : (xf.sheets.map (fun q : String × DataFrame =>
      (fid ++ "_" ++ q.1, q.2))).map Prod.fst
      = (xf.sheets.map Prod.fst).map (fun s => fid ++ "_" ++ s) := by
    simp only [List.map_map]
    rfl
  have hnd : ((xf.sheets.map (fun q : String × DataFrame =>
      (fid ++ "_" ++ q.1, q.2))).map Prod.fst).Nodup := by
    rw [hkeys]
    exact hnodup.map (sheetKey_injective fid)
  have hmain : (addData st (processExcel xf) fid).dataFrames
      = xf.sheets.map (fun p => (fid ++ "_" ++ p.1, p.2)) := by
    simp only [addData, processExcel, hempty]
    rw [← List.foldl_map (fun q : String × DataFrame => (fid ++ "_" ++ q.1, q.2))
      (fun acc p => assocSet acc p.1 p.2)]
    rw [foldl_assocSet_fresh _ [] hnd (fun _ _ => rfl)]
    simp
  refine ⟨rfl, by simp [sheetNamesOf, processExcel], hmain, ?_, ?_⟩
  · rw [hmain]
    simp only [sheetNamesOf, processExcel]
    simp only [List.map_map]
    rfl
  · rw [hmain]
    simp

theorem excel_ingest_registers_sheets_witness :
    ((EngineState.dataFrames ⟨[], []⟩ = []
      ∧ ((ExcelFile.mk [("S1", ⟨1⟩), ("S2", ⟨2⟩)]).sheets.map Prod.fst).Nodup)
     ∧ (sheetNamesOf (processExcel ⟨[("S1", ⟨1⟩), ("S2", ⟨2⟩)]⟩)
          = ["S1", "S2"]
        ∧ (sheetNamesOf (processExcel ⟨[("S1", ⟨1⟩), ("S2", ⟨2⟩)]⟩)).length = 2
        ∧ (addData ⟨[], []⟩ (processExcel ⟨[("S1", ⟨1⟩), ("S2", ⟨2⟩)]⟩)
            "wb.xlsx").dataFrames
          = [("wb.xlsx_S1", ⟨1⟩), ("wb.xlsx_S2", ⟨2⟩)]
        ∧ ((addData ⟨[], []⟩ (processExcel ⟨[("S1", ⟨1⟩), ("S2", ⟨2⟩)]⟩)
            "wb.xlsx").dataFrames.map Prod.fst)
          = (sheetNamesOf (processExcel ⟨[("S1", ⟨1⟩), ("S2", ⟨2⟩)]⟩)).map
              (fun n => "wb.xlsx" ++ "_" ++ n)
        ∧ (addData ⟨[], []⟩ (processExcel ⟨[("S1", ⟨1⟩), ("S2", ⟨2⟩)]⟩)
            "wb.xlsx").dataFrames.length = 2)) :=
  ⟨⟨rfl, by decide⟩,
   excel_ingest_registers_sheets ⟨[("S1", ⟨1⟩), ("S2", ⟨2⟩)]⟩ "wb.xlsx"
     ⟨[], []⟩ rfl (by decide)⟩

end SNAgent
